import Mathlib

/-!
Shallow embedding of the NR-signature routines `ippsGFpECSignNR` /
`ippsGFpECVerifyNR` (src/ext/ipp/sources/ippcp/src/pcpgfpecsignnr.c) and of
`ippsSHA256Update` (src/ext/ipp/sources/ippcp/pcpsha256update.c).

Big numbers (`IppsBigNumState`) are modelled by their context-validity tag,
sign flag, semantic value, the integer contents of the order-length window of
their data array, and their room in bits.  The prime-order elliptic-curve
group is cyclic of order `n`, so points are represented by their canonical
discrete logarithm with respect to the base point `G`: the point `a·G` is the
scalar `a % n`, the point at infinity is `0`, and `G` itself is `1`.  The
external collaborators (scalar multiplication, affine-coordinate extraction,
Montgomery arithmetic, the scratch pool, the SHA-256 block transform) are not
in the analysed sources and are modelled from the spec, as noted at each
definition.
-/

/-- Return statuses of the IPP primitives, restricted to the codes that the
two analysed files can return (`ippStsNoErr`, `ippStsNullPtrErr`,
`ippStsContextMatchErr`, `ippStsNotSupportedModeErr`, `ippStsMessageErr`,
`ippStsRangeErr`, `ippStsIvalidPrivateKey`, `ippStsErr`,
`ippStsOutOfRangeErr`, `ippStsLengthErr`). -/
inductive IppStatus where
  | NoErr
  | NullPtrErr
  | ContextMatchErr
  | NotSupportedModeErr
  | MessageErr
  | RangeErr
  | IvalidPrivateKey
  | Err
  | OutOfRangeErr
  | LengthErr
  deriving DecidableEq

/-- Verification outcome written through `pResult`:
`ippECValid` / `ippECInvalidSignature`. -/
inductive IppECResult where
  | Valid
  | InvalidSignature
  deriving DecidableEq

/-- Model of `IppsBigNumState`: `valid` is the `BN_VALID_ID` context tag,
`neg` the `BN_NEGATIVE` sign flag, `val` the semantic value described by the
(sign, number, size) header view, `arr` the integer contents of the first
`orderLen` words of the `BN_NUMBER` data array, and `roomBits` the capacity
`BN_ROOM * BITSIZE(BNU_CHUNK_T)` in bits.  In a well-formed caller-supplied
big number `arr = val`; the two are tracked separately because
`ippsGFpECSignNR` writes into the data array before its degenerate-signature
check without updating the header. -/
structure BigNum where
  valid : Bool
  neg : Bool
  val : ℕ
  arr : ℕ
  roomBits : ℕ
  deriving DecidableEq

/-- Model of the elliptic-curve context `IppsGFpECState` together with its
modular engine for the group order.  `valid` is the `ECP_TEST_ID` tag,
`extDegree` the field extension degree `GFP_EXTDEGREE`, `orderBits` is
`ECP_ORDBITSIZE`, `felen` is `GFP_FELEN`, and `n` the group order (the
modulus of `ECP_MONT_R`).

Modelled from the spec: the external collaborators bound to the context.
`R` and `rinv` are the Montgomery radix of the mod-`n` engine and its
inverse modulo `n` (ModularArithmetic: `MontgomeryEncode` multiplies by `R`
mod `n`, `MontgomeryMultiply` multiplies and divides by `R` mod `n`);
`xcoord a` is the decoded canonical affine x-coordinate of the point `a·G`
(ECGroupOps: `GetAffineCoordinates` after `decode`), meaningful for
canonical scalars `1 ≤ a < n`; the group is cyclic of prime order `n`, so
`ScalarMultiplyBase k = (k % n)·G` and
`DoubleScalarMultiply d G c Q = ((d + c·q) % n)·G` when `Q = q·G`, with the
point at infinity at scalar `0`. -/
structure ECCtx where
  valid : Bool
  extDegree : ℕ
  orderBits : ℕ
  felen : ℕ
  n : ℕ
  R : ℕ
  rinv : ℕ
  xcoord : ℕ → ℕ

/-- Model of an `IppsGFpECPoint` public-key handle: `valid` is the
`ECP_POINT_TEST_ID` tag, `felen` is `ECP_POINT_FELEN`, and `q` the discrete
logarithm of the point with respect to the base point (the point is
`(q % n)·G` in the cyclic group model). -/
structure ECPub where
  valid : Bool
  felen : ℕ
  q : ℕ
  deriving DecidableEq

/-- Result of a call to `ippsGFpECSignNR`: the returned status, the final
states of the two output big numbers (unchanged copies of the inputs on the
validation-failure paths), and the acquire/release counts of the EC-point
scratch pool (`cpEcGFpGetPool`/`cpEcGFpReleasePool`) and of the
field-element scratch pool (`cpGFpGetPool`/`cpGFpReleasePool`). -/
structure SignResult where
  status : IppStatus
  signC : Option BigNum
  signD : Option BigNum
  ecAcq : ℕ
  ecRel : ℕ
  feAcq : ℕ
  feRel : ℕ
  deriving DecidableEq

/-- Early return of `ippsGFpECSignNR` before any pool acquisition: the output
big numbers are untouched and no pool slot was borrowed. -/
def SignResult.fail (s : IppStatus) (c d : Option BigNum) : SignResult :=
  ⟨s, c, d, 0, 0, 0, 0⟩

/-- Shallow embedding of `ippsGFpECSignNR`
(pcpgfpecsignnr.c, lines 74-179).  Nullable pointer arguments are `Option`s
and the scratch-buffer pointer is the flag `scratch` (`true` = non-null).
The checks appear in the source's order: EC context and scratch-buffer null
test, EC context tag, extension-degree support test, message null and tag
tests, signature-output null, tag and room tests, private-key null and tag
tests, private-key range tests, message range test, then the signing
arithmetic.  On the degenerate path (`c = 0`, source line 156) the source has
already written the reduced x-coordinate and then the zero sum `c` into
`pSignC`'s data array and a zero-extended copy of the message into `pSignD`'s
data array (lines 144-153) without updating either header, which the model
records in the `arr` fields. -/
def ippsGFpECSignNR (pMsg pRegPrivate pEphPrivate : Option BigNum)
    (pSignC pSignD : Option BigNum) (pEC : Option ECCtx) (scratch : Bool) :
    SignResult :=
  match pEC, scratch with
  | none, _ => .fail .NullPtrErr pSignC pSignD
  | some _, false => .fail .NullPtrErr pSignC pSignD
  | some ec, true =>
    if ec.valid = false then .fail .ContextMatchErr pSignC pSignD
    else if 1 < ec.extDegree then .fail .NotSupportedModeErr pSignC pSignD
    else
      match pMsg with
      | none => .fail .NullPtrErr pSignC pSignD
      | some msg =>
        if msg.valid = false then .fail .ContextMatchErr pSignC pSignD
        else
          match pSignC, pSignD with
          | none, sd => .fail .NullPtrErr none sd
          | some sc, none => .fail .NullPtrErr (some sc) none
          | some sc, some sd =>
            if sc.valid = false then
              .fail .ContextMatchErr (some sc) (some sd)
            else if sd.valid = false then
              .fail .ContextMatchErr (some sc) (some sd)
            else if sc.roomBits < ec.orderBits then
              .fail .RangeErr (some sc) (some sd)
            else if sd.roomBits < ec.orderBits then
              .fail .RangeErr (some sc) (some sd)
            else
              match pRegPrivate, pEphPrivate with
              | none, _ => .fail .NullPtrErr (some sc) (some sd)
              | some _, none => .fail .NullPtrErr (some sc) (some sd)
              | some reg, some eph =>
                if reg.valid = false then
                  .fail .ContextMatchErr (some sc) (some sd)
                else if eph.valid = false then
                  .fail .ContextMatchErr (some sc) (some sd)
                else if reg.neg = true ∨ ec.n ≤ reg.val then
                  .fail .IvalidPrivateKey (some sc) (some sd)
                else if eph.neg = true ∨ ec.n ≤ eph.val then
                  .fail .IvalidPrivateKey (some sc) (some sd)
                else if msg.neg = true ∨ ec.n ≤ msg.val then
                  .fail .MessageErr (some sc) (some sd)
                else
                  -- cpEcGFpGetPool(1, pEC); gfec_MulBasePoint;
                  -- gfec_GetPoint; decode; cpMod_BNU; cpEcGFpReleasePool(1)
                  let r := ec.xcoord (eph.val % ec.n) % ec.n
                  -- ZEXPAND_COPY_BNU(dataD, msg); cpModAdd_BNU
                  let c := (r + msg.val) % ec.n
                  if c = 0 then
                    ⟨.Err,
                     some { sc with arr := 0 },
                     some { sd with arr := msg.val },
                     1, 1, 0, 0⟩
                  else
                    -- cpMontEnc_BNU_EX; cpMontMul_BNU; cpModSub_BNU
                    let enc := reg.val * ec.R % ec.n
                    let prod := enc * c * ec.rinv % ec.n
                    let d := (eph.val + ec.n - prod) % ec.n
                    ⟨.NoErr,
                     some { sc with neg := false, val := c, arr := c },
                     some { sd with neg := false, val := d, arr := d },
                     1, 1, 0, 0⟩

/-- Result of a call to `ippsGFpECVerifyNR`: the returned status, the value
written through `pResult` (`none` when nothing was written), and the
acquire/release counts of the EC-point pool and of the field-element pool. -/
structure VerifyResult where
  status : IppStatus
  result : Option IppECResult
  ecAcq : ℕ
  ecRel : ℕ
  feAcq : ℕ
  feRel : ℕ
  deriving DecidableEq

/-- Early return of `ippsGFpECVerifyNR` before any pool acquisition: nothing
was written through `pResult` and no pool slot was borrowed. -/
def VerifyResult.fail (s : IppStatus) : VerifyResult := ⟨s, none, 0, 0, 0, 0⟩

/-- Shallow embedding of `ippsGFpECVerifyNR`
(pcpgfpecsignnr.c, lines 219-314).  The checks appear in the source's order:
EC context and scratch-buffer null test, EC context tag, extension-degree
support test, message null and tag tests, public-key null, tag and
field-element-length tests, signature null, tag and negativity tests, result
null test, message range test.  Then, only when `0 < c < n` and `0 < d < n`,
the source borrows three field elements and one point from the pools,
computes `P = d·G + c·Q` (`gfec_BasePointProduct`), and — when `P` has an
affine representative — compares the message against `(c - P.x mod n) mod n`;
invalid signatures, including `P` at infinity, leave the result at
`ippECInvalidSignature` while the call itself succeeds.  In the cyclic model
`P` is the canonical scalar `(d + c·q) % n`, infinity being `0`. -/
def ippsGFpECVerifyNR (pMsg : Option BigNum) (pRegPublic : Option ECPub)
    (pSignC pSignD : Option BigNum) (resultPtr : Bool) (pEC : Option ECCtx)
    (scratch : Bool) : VerifyResult :=
  match pEC, scratch with
  | none, _ => .fail .NullPtrErr
  | some _, false => .fail .NullPtrErr
  | some ec, true =>
    if ec.valid = false then .fail .ContextMatchErr
    else if 1 < ec.extDegree then .fail .NotSupportedModeErr
    else
      match pMsg with
      | none => .fail .NullPtrErr
      | some msg =>
        if msg.valid = false then .fail .ContextMatchErr
        else
          match pRegPublic with
          | none => .fail .NullPtrErr
          | some pub =>
            if pub.valid = false then .fail .ContextMatchErr
            else if pub.felen ≠ ec.felen then .fail .OutOfRangeErr
            else
              match pSignC, pSignD with
              | none, _ => .fail .NullPtrErr
              | some _, none => .fail .NullPtrErr
              | some sc, some sd =>
                if sc.valid = false then .fail .ContextMatchErr
                else if sd.valid = false then .fail .ContextMatchErr
                else if sc.neg = true then .fail .RangeErr
                else if sd.neg = true then .fail .RangeErr
                else if resultPtr = false then .fail .NullPtrErr
                else if msg.neg = true ∨ ec.n ≤ msg.val then .fail .MessageErr
                else if sc.val ≠ 0 ∧ sd.val ≠ 0 ∧
                        sc.val < ec.n ∧ sd.val < ec.n then
                  -- cpGFpGetPool(3, pGFE); cpEcGFpGetPool(1, pEC)
                  -- gfec_BasePointProduct: P = [d]G + [c]Q
                  let p0 := (sd.val + sc.val * pub.q) % ec.n
                  if p0 ≠ 0 then
                    -- gfec_GetPoint succeeded; decode; cpMod_BNU
                    let x' := ec.xcoord p0 % ec.n
                    -- cpModSub_BNU(h1, h2, h1): (signC - x) mod order
                    let f := (sc.val + ec.n - x') % ec.n
                    if msg.val = f then
                      ⟨.NoErr, some .Valid, 1, 1, 3, 3⟩
                    else
                      ⟨.NoErr, some .InvalidSignature, 1, 1, 3, 3⟩
                  else
                    ⟨.NoErr, some .InvalidSignature, 1, 1, 3, 3⟩
                else
                  ⟨.NoErr, some .InvalidSignature, 0, 0, 0, 0⟩

/-- Model of `IppsSHA256State`: `valid` is the `HASH_CTX_ID` tag
(`idCtxSHA256`), `buffIdx` the internal buffer fill index `HAHS_BUFFIDX`,
`buffer` the 64-byte internal block buffer `HASH_BUFF`, `lenLo` the low
64-bit processed-length counter `HASH_LENLO`, and `digest` the intermediate
hash value `HASH_VALUE`, kept abstract as a natural number. -/
structure SHA256State where
  valid : Bool
  buffIdx : ℕ
  buffer : List ℕ
  lenLo : ℕ
  digest : ℕ
  deriving DecidableEq

/-- Block size `MBS_SHA256` = 64 bytes. -/
def MBS_SHA256 : ℕ := 64

/-- Shallow embedding of `ippsSHA256Update`
(pcpsha256update.c, lines 77-146).  `updateFunc` stands for the external
block transform (`UpdateSHA256` or `UpdateSHA256ni`), modelled from the spec
as an abstract function from the current digest and the consumed bytes to
the new digest; `pSrc` is the nullable input stream and `len` the C `int`
length argument.  The model follows the source step by step: state null and
tag tests, `len < 0` test, `(len && !pSrc)` null test; then for `len ≠ 0`
the partial-buffer fill (with a block transform when the buffer fills), the
whole-block bulk processing of `len & ~(MBS_SHA256-1)` bytes, the copy of
the remaining tail into the buffer, and the update of `HASH_LENLO` (64-bit
wraparound) and `HAHS_BUFFIDX`.  This definition is the non-empty-message
block of `ippsSHA256Update` (pcpsha256update.c, lines 92-143), operating on
the dereferenced state. -/
def sha256UpdateBody (updateFunc : ℕ → List ℕ → ℕ) (src : List ℕ) (L : ℕ)
    (st : SHA256State) : SHA256State :=
  let lenLo' := (st.lenLo + L) % 2 ^ 64
  -- non-empty internal buffer filling
  let idx := st.buffIdx
  let fill :=
    if idx ≠ 0 then
      let procLen := min L (MBS_SHA256 - idx)
      let buf :=
        st.buffer.take idx ++ src.take procLen ++
          st.buffer.drop (idx + procLen)
      let src' := src.drop procLen
      let L' := L - procLen
      let idx' := idx + procLen
      if idx' = MBS_SHA256 then
        (updateFunc st.digest buf, buf, src', L', 0)
      else
        (st.digest, buf, src', L', idx')
    else
      (st.digest, st.buffer, src, L, idx)
  let digest₁ := fill.1
  let buf₁ := fill.2.1
  let src₁ := fill.2.2.1
  let L₁ := fill.2.2.2.1
  let idx₁ := fill.2.2.2.2
  -- main message part processing
  let procLen₂ := L₁ - L₁ % MBS_SHA256
  let digest₂ :=
    if procLen₂ ≠ 0 then updateFunc digest₁ (src₁.take procLen₂)
    else digest₁
  let src₂ := src₁.drop procLen₂
  let L₂ := L₁ - procLen₂
  -- store rest of message into the internal buffer
  let buf₂ := if L₂ ≠ 0 then src₂.take L₂ ++ buf₁.drop L₂ else buf₁
  let idx₂ := idx₁ + L₂
  { st with buffIdx := idx₂, buffer := buf₂, lenLo := lenLo',
            digest := digest₂ }

/-- Validation-and-dispatch wrapper of `ippsSHA256Update`
(pcpsha256update.c, lines 77-146): state null and tag tests, the `len < 0`
test, the `(len && !pSrc)` null test, and the empty-message early success;
a non-empty message is handed to `sha256UpdateBody`. -/
def ippsSHA256Update (updateFunc : ℕ → List ℕ → ℕ) (pSrc : Option (List ℕ))
    (len : ℤ) (pState : Option SHA256State) : IppStatus × Option SHA256State :=
  match pState with
  | none => (.NullPtrErr, none)
  | some st =>
    if st.valid = false then (.ContextMatchErr, some st)
    else if len < 0 then (.LengthErr, some st)
    else if len ≠ 0 ∧ pSrc = none then (.NullPtrErr, some st)
    else if len = 0 then (.NoErr, some st)
    else (.NoErr, some (sha256UpdateBody updateFunc (pSrc.getD []) len.toNat st))

/-- Validation checks of `ippsGFpECSignNR` as an explicitly ordered list of
(condition, error) pairs, in the order the source performs them: the EC
context / scratch-buffer group (null, tag, extension degree), the message
group (null, tag), the signature-output group (null, tags, rooms), the
private-key group (null, tags), and finally the numeric range checks (keys,
then message). -/
def signNRChecks (pMsg pRegPrivate pEphPrivate : Option BigNum)
    (pSignC pSignD : Option BigNum) (pEC : Option ECCtx) (scratch : Bool) :
    List (Bool × IppStatus) :=
  [ (pEC.isNone || !scratch, .NullPtrErr),
    (pEC.elim false fun ec => !ec.valid, .ContextMatchErr),
    (pEC.elim false fun ec => decide (1 < ec.extDegree), .NotSupportedModeErr),
    (pMsg.isNone, .NullPtrErr),
    (pMsg.elim false fun b => !b.valid, .ContextMatchErr),
    (pSignC.isNone || pSignD.isNone, .NullPtrErr),
    (pSignC.elim false fun b => !b.valid, .ContextMatchErr),
    (pSignD.elim false fun b => !b.valid, .ContextMatchErr),
    (pEC.elim false fun ec =>
      pSignC.elim false fun b => decide (b.roomBits < ec.orderBits), .RangeErr),
    (pEC.elim false fun ec =>
      pSignD.elim false fun b => decide (b.roomBits < ec.orderBits), .RangeErr),
    (pRegPrivate.isNone || pEphPrivate.isNone, .NullPtrErr),
    (pRegPrivate.elim false fun b => !b.valid, .ContextMatchErr),
    (pEphPrivate.elim false fun b => !b.valid, .ContextMatchErr),
    (pEC.elim false fun ec => pRegPrivate.elim false fun b =>
      b.neg || decide (ec.n ≤ b.val), .IvalidPrivateKey),
    (pEC.elim false fun ec => pEphPrivate.elim false fun b =>
      b.neg || decide (ec.n ≤ b.val), .IvalidPrivateKey),
    (pEC.elim false fun ec => pMsg.elim false fun b =>
      b.neg || decide (ec.n ≤ b.val), .MessageErr) ]

/-- First failing validation check of `ippsGFpECSignNR` in the source's
order, or `none` when every check passes. -/
def signNRValidation (pMsg pRegPrivate pEphPrivate : Option BigNum)
    (pSignC pSignD : Option BigNum) (pEC : Option ECCtx) (scratch : Bool) :
    Option IppStatus :=
  (signNRChecks pMsg pRegPrivate pEphPrivate pSignC pSignD pEC scratch).findSome?
    fun p => if p.1 then some p.2 else none

/-- Montgomery encode-multiply-reduce chain: encoding `x` (multiplication by
the radix `R` modulo `n`) and Montgomery-multiplying by `c` (multiplication
followed by division by `R` modulo `n`) produces the plain product
`x·c mod n` whenever `R·rinv ≡ 1 (mod n)`. -/
theorem montMul_enc_eq (x c R rinv n : ℕ) (h : R * rinv % n = 1 % n) :
    x * R % n * c * rinv % n = x * c % n := by
  have h1 : x * R % n * c * rinv ≡ x * R * c * rinv [MOD n] :=
    Nat.ModEq.mul_right _ (Nat.ModEq.mul_right _ (Nat.mod_modEq _ _))
  have h2 : x * R * c * rinv = x * c * (R * rinv) := by ring
  have h3 : x * c * (R * rinv) ≡ x * c * 1 [MOD n] :=
    Nat.ModEq.mul_left _ h
  calc x * R % n * c * rinv % n = x * R * c * rinv % n := h1
    _ = x * c * (R * rinv) % n := by rw [h2]
    _ = x * c * 1 % n := h3
    _ = x * c % n := by rw [mul_one]

/-- Scalar of the point recomputed by verification: substituting the signed
component `d = (k - x·c) mod n` into `d + c·x` gives back the ephemeral
scalar `k`. -/
theorem verify_scalar_eq (k x c n : ℕ) (hn : 0 < n) (hk : k < n) :
    ((k + n - x * c % n) % n + c * x) % n = k := by
  have ht : x * c % n < n := Nat.mod_lt _ hn
  have h1 : ((k + n - x * c % n) % n + c * x) % n
      = (k + n - x * c % n + c * x) % n := Nat.mod_add_mod _ _ _
  have h2 : c * x ≡ x * c % n [MOD n] := by
    rw [mul_comm]
    exact (Nat.mod_modEq _ _).symm
  have h3 : k + n - x * c % n + c * x ≡ k + n - x * c % n + x * c % n [MOD n] :=
    Nat.ModEq.add_left _ h2
  have h4 : k + n - x * c % n + x * c % n = k + n := by omega
  calc ((k + n - x * c % n) % n + c * x) % n
      = (k + n - x * c % n + c * x) % n := h1
    _ = (k + n - x * c % n + x * c % n) % n := h3
    _ = (k + n) % n := by rw [h4]
    _ = k % n := Nat.add_mod_right _ _
    _ = k := Nat.mod_eq_of_lt hk

/-- Recovery of the message representative: with `c = (r + m) mod n` the
modular difference `(c - r) mod n` is `m` again, for `m, r < n`. -/
theorem recover_msg_eq (r m n : ℕ) (hm : m < n) (hr : r < n) :
    ((r + m) % n + n - r) % n = m := by
  have h2 : (r + m) % n + n - r + r ≡ m + r [MOD n] := by
    have h1 : (r + m) % n + n - r + r = (r + m) % n + n := by omega
    rw [h1]
    calc (r + m) % n + n ≡ r + m + n [MOD n] := (Nat.mod_modEq _ _).add_right n
      _ = m + r + n := by ring
      _ ≡ m + r [MOD n] := by
          show (m + r + n) % n = (m + r) % n
          exact Nat.add_mod_right _ _
  have h3 : (r + m) % n + n - r ≡ m [MOD n] := Nat.ModEq.add_right_cancel' r h2
  calc ((r + m) % n + n - r) % n = m % n := h3
    _ = m := Nat.mod_eq_of_lt hm

/-- Modular subtraction over the naturals, with the minuend padded by the
modulus, equals the integer remainder of the plain difference. -/
theorem natModSub_cast (a b n : ℕ) (hn : 0 < n) :
    (((a + n - b % n) % n : ℕ) : ℤ) = ((a : ℤ) - b) % n := by
  have hb : b % n < n := Nat.mod_lt _ hn
  have hle : b % n ≤ a + n := by omega
  push_cast [Nat.cast_sub hle]
  have h1 : (a : ℤ) + n - (b : ℤ) % n = ((a : ℤ) - (b : ℤ) % n) + n * 1 := by
    ring
  rw [h1, Int.add_mul_emod_self_left, Int.sub_emod, Int.emod_emod_of_dvd _ dvd_rfl,
    ← Int.sub_emod]

/-- Toy curve context from the spec fixture: group order `n = 23`, one-word
field elements, five order bits, Montgomery radix `256` with inverse `8`
modulo 23, and the x-coordinate of `a·G` modelled as the canonical scalar
`a` itself. -/
def toyCtx : ECCtx := ⟨true, 1, 5, 1, 23, 256, 8, fun a => a⟩

/-- Well-formed toy big number of value `v` with 64 bits of room. -/
def toyBN (v : ℕ) : BigNum := ⟨true, false, v, v, 64⟩

/-- Success path of `ippsGFpECSignNR`: when every validation check passes and
the degenerate check does not fire, the call returns `ippStsNoErr` with
`c = (r + m) mod n` and `d = (k - x·c) mod n` (the Montgomery
encode/multiply chain folded to the plain product) written into the output
big numbers, one EC-point pool slot acquired and released, and no
field-element pool use. -/
theorem signNR_success_eq
    (ec : ECCtx) (msg reg eph sc sd : BigNum)
    (hec : ec.valid = true) (hext : ec.extDegree ≤ 1)
    (hmont : ec.R * ec.rinv % ec.n = 1 % ec.n)
    (hmsgv : msg.valid = true) (hmsgneg : msg.neg = false) (hmn : msg.val < ec.n)
    (hregv : reg.valid = true) (hregneg : reg.neg = false) (hxn : reg.val < ec.n)
    (hephv : eph.valid = true) (hephneg : eph.neg = false) (hkn : eph.val < ec.n)
    (hscv : sc.valid = true) (hsdv : sd.valid = true)
    (hscroom : ec.orderBits ≤ sc.roomBits) (hsdroom : ec.orderBits ≤ sd.roomBits)
    (hc : (ec.xcoord (eph.val % ec.n) % ec.n + msg.val) % ec.n ≠ 0) :
    ippsGFpECSignNR (some msg) (some reg) (some eph) (some sc) (some sd)
        (some ec) true =
      ⟨.NoErr,
       some { sc with neg := false,
                      val := (ec.xcoord (eph.val % ec.n) % ec.n + msg.val) % ec.n,
                      arr := (ec.xcoord (eph.val % ec.n) % ec.n + msg.val) % ec.n },
       some { sd with neg := false,
                      val := (eph.val + ec.n -
                        reg.val * ((ec.xcoord (eph.val % ec.n) % ec.n + msg.val) % ec.n)
                          % ec.n) % ec.n,
                      arr := (eph.val + ec.n -
                        reg.val * ((ec.xcoord (eph.val % ec.n) % ec.n + msg.val) % ec.n)
                          % ec.n) % ec.n },
       1, 1, 0, 0⟩ := by
  have hc' : (ec.xcoord (eph.val % ec.n) + msg.val) % ec.n ≠ 0 := by
    rwa [Nat.mod_add_mod] at hc
  simp only [ippsGFpECSignNR]
  rw [montMul_enc_eq _ _ _ _ _ hmont]
  simp [hec, hmsgv, hregv, hephv, hscv, hsdv, hext.not_lt, hscroom.not_lt,
    hsdroom.not_lt, hmsgneg, hregneg, hephneg, hmn.not_le, hxn.not_le,
    hkn.not_le, hc']

/-- C2: on every input passing validation on which the degenerate check does
not fire, `ippsGFpECSignNR` succeeds and writes exactly
`c = (r + m) mod n` and `d = (k - x·c) mod n` into the two output big
numbers, marked non-negative, where `r` is the decoded affine x-coordinate
of `k·G` reduced modulo the order `n`, and the `x·c` product goes through
the Montgomery encode/multiply chain. -/
theorem signNR_writes_c_d
    (ec : ECCtx) (msg reg eph sc sd : BigNum)
    (hec : ec.valid = true) (hext : ec.extDegree ≤ 1) (hn : 0 < ec.n)
    (hmont : ec.R * ec.rinv % ec.n = 1 % ec.n)
    (hmsgv : msg.valid = true) (hmsgneg : msg.neg = false) (hmn : msg.val < ec.n)
    (hregv : reg.valid = true) (hregneg : reg.neg = false) (hxn : reg.val < ec.n)
    (hephv : eph.valid = true) (hephneg : eph.neg = false) (hkn : eph.val < ec.n)
    (hscv : sc.valid = true) (hsdv : sd.valid = true)
    (hscroom : ec.orderBits ≤ sc.roomBits) (hsdroom : ec.orderBits ≤ sd.roomBits)
    (hc : (ec.xcoord (eph.val % ec.n) % ec.n + msg.val) % ec.n ≠ 0) :
    ∃ dN : ℕ,
      ippsGFpECSignNR (some msg) (some reg) (some eph) (some sc) (some sd)
          (some ec) true =
        ⟨.NoErr,
         some { sc with neg := false,
                        val := (ec.xcoord (eph.val % ec.n) % ec.n + msg.val) % ec.n,
                        arr := (ec.xcoord (eph.val % ec.n) % ec.n + msg.val) % ec.n },
         some { sd with neg := false, val := dN, arr := dN }, 1, 1, 0, 0⟩ ∧
      (dN : ℤ) = ((eph.val : ℤ) -
        reg.val * ((ec.xcoord (eph.val % ec.n) % ec.n + msg.val) % ec.n)) % ec.n := by
  refine ⟨(eph.val + ec.n -
      reg.val * ((ec.xcoord (eph.val % ec.n) % ec.n + msg.val) % ec.n) % ec.n) % ec.n,
      signNR_success_eq ec msg reg eph sc sd hec hext hmont hmsgv hmsgneg hmn
        hregv hregneg hxn hephv hephneg hkn hscv hsdv hscroom hsdroom hc, ?_⟩
  rw [natModSub_cast _ _ _ hn]
  push_cast
  ring_nf

/-- Witness for `signNR_writes_c_d` at the spec's toy fixture `n = 23`,
`x = 5`, `k = 7`, `m = 3`, which yields `c = 10` and `d = 3`. -/
theorem signNR_writes_c_d_witness :
    ippsGFpECSignNR (some (toyBN 3)) (some (toyBN 5)) (some (toyBN 7))
        (some (toyBN 0)) (some (toyBN 0)) (some toyCtx) true =
      ⟨.NoErr, some ⟨true, false, 10, 10, 64⟩, some ⟨true, false, 3, 3, 64⟩,
       1, 1, 0, 0⟩ := by
  obtain ⟨dN, hEq, hInt⟩ := signNR_writes_c_d toyCtx (toyBN 3) (toyBN 5)
    (toyBN 7) (toyBN 0) (toyBN 0) (by decide) (by decide) (by decide)
    (by decide) (by decide) (by decide) (by decide) (by decide) (by decide)
    (by decide) (by decide) (by decide) (by decide) (by decide) (by decide)
    (by decide) (by decide) (by decide)
  have hdN : dN = 3 := by
    have h3 : (dN : ℤ) = 3 := hInt.trans (by decide)
    exact_mod_cast h3
  rw [hEq, hdN]
  decide

/-- C1 counterexample: on the toy curve with order 23 and identity
x-coordinate map, for `x = 12`, `k = 1`, `m = 1` (all in the ranges the
claim quantifies over) signing succeeds with `c = 2` and `d = 0` — the
degenerate check of `ippsGFpECSignNR` only tests `c` — and
`ippsGFpECVerifyNR` then rejects the zero `d`, writing
`ippECInvalidSignature` rather than `ippECValid`. -/
theorem signNR_roundtrip_d_zero_cex :
    (ippsGFpECSignNR (some (toyBN 1)) (some (toyBN 12)) (some (toyBN 1))
        (some (toyBN 0)) (some (toyBN 0)) (some toyCtx) true).status = .NoErr ∧
    (ippsGFpECSignNR (some (toyBN 1)) (some (toyBN 12)) (some (toyBN 1))
        (some (toyBN 0)) (some (toyBN 0)) (some toyCtx) true).signD =
      some ⟨true, false, 0, 0, 64⟩ ∧
    (ippsGFpECVerifyNR (some (toyBN 1)) (some ⟨true, 1, 12⟩)
        (ippsGFpECSignNR (some (toyBN 1)) (some (toyBN 12)) (some (toyBN 1))
          (some (toyBN 0)) (some (toyBN 0)) (some toyCtx) true).signC
        (ippsGFpECSignNR (some (toyBN 1)) (some (toyBN 12)) (some (toyBN 1))
          (some (toyBN 0)) (some (toyBN 0)) (some toyCtx) true).signD
        true (some toyCtx) true).result = some .InvalidSignature ∧
    (ippsGFpECVerifyNR (some (toyBN 1)) (some ⟨true, 1, 12⟩)
        (ippsGFpECSignNR (some (toyBN 1)) (some (toyBN 12)) (some (toyBN 1))
          (some (toyBN 0)) (some (toyBN 0)) (some toyCtx) true).signC
        (ippsGFpECSignNR (some (toyBN 1)) (some (toyBN 12)) (some (toyBN 1))
          (some (toyBN 0)) (some (toyBN 0)) (some toyCtx) true).signD
        true (some toyCtx) true).result ≠ some .Valid := by
  decide

/-- C1 amended: for every supported curve context, keys `x, k ∈ [1, n-1]`
and message representative `0 < m < n`, whenever signing succeeds (the
computed `c` is non-zero) and the signed component `d = (k - x·c) mod n` is
also non-zero, verifying the produced signature against the public key
`x·G` returns call-success with result `ippECValid` (and balanced pool
use).  The two extra provisos are forced by the code: `c = 0` makes
`ippsGFpECSignNR` fail, and a zero `d` passes signing — which only checks
`c` — but is rejected as invalid by `ippsGFpECVerifyNR`. -/
theorem signNR_then_verifyNR_valid
    (ec : ECCtx) (msg reg eph sc sd : BigNum)
    (hec : ec.valid = true) (hext : ec.extDegree ≤ 1) (hn : 1 < ec.n)
    (hmont : ec.R * ec.rinv % ec.n = 1 % ec.n)
    (hmsgv : msg.valid = true) (hmsgneg : msg.neg = false)
    (_hm0 : 0 < msg.val) (hmn : msg.val < ec.n)
    (hregv : reg.valid = true) (hregneg : reg.neg = false)
    (_hx0 : 0 < reg.val) (hxn : reg.val < ec.n)
    (hephv : eph.valid = true) (hephneg : eph.neg = false)
    (hk0 : 0 < eph.val) (hkn : eph.val < ec.n)
    (hscv : sc.valid = true) (hsdv : sd.valid = true)
    (hscroom : ec.orderBits ≤ sc.roomBits) (hsdroom : ec.orderBits ≤ sd.roomBits)
    (hc : (ec.xcoord (eph.val % ec.n) % ec.n + msg.val) % ec.n ≠ 0)
    (hd : (eph.val + ec.n -
      reg.val * ((ec.xcoord (eph.val % ec.n) % ec.n + msg.val) % ec.n) % ec.n)
        % ec.n ≠ 0) :
    (ippsGFpECSignNR (some msg) (some reg) (some eph) (some sc) (some sd)
        (some ec) true).status = .NoErr ∧
    (ippsGFpECVerifyNR (some msg) (some ⟨true, ec.felen, reg.val⟩)
        (ippsGFpECSignNR (some msg) (some reg) (some eph) (some sc) (some sd)
          (some ec) true).signC
        (ippsGFpECSignNR (some msg) (some reg) (some eph) (some sc) (some sd)
          (some ec) true).signD
        true (some ec) true) =
      ⟨.NoErr, some .Valid, 1, 1, 3, 3⟩ := by
  have hn0 : 0 < ec.n := by omega
  have hkk : eph.val % ec.n = eph.val := Nat.mod_eq_of_lt hkn
  have hS := signNR_success_eq ec msg reg eph sc sd hec hext hmont hmsgv hmsgneg
    hmn hregv hregneg hxn hephv hephneg hkn hscv hsdv hscroom hsdroom hc
  rw [hkk] at hS hc hd
  rw [hS]
  refine ⟨rfl, ?_⟩
  set c := (ec.xcoord eph.val % ec.n + msg.val) % ec.n with hcdef
  set d := (eph.val + ec.n - reg.val * c % ec.n) % ec.n with hddef
  have hcn : c < ec.n := by rw [hcdef]; exact Nat.mod_lt _ hn0
  have hdn : d < ec.n := by rw [hddef]; exact Nat.mod_lt _ hn0
  have hrn : ec.xcoord eph.val % ec.n < ec.n := Nat.mod_lt _ hn0
  have hp0 : (d + c * reg.val) % ec.n = eph.val := by
    rw [hddef]; exact verify_scalar_eq eph.val reg.val c ec.n hn0 hkn
  have hf : (c + ec.n - ec.xcoord eph.val % ec.n) % ec.n = msg.val := by
    rw [hcdef]; exact recover_msg_eq _ _ _ hmn hrn
  simp only [ippsGFpECVerifyNR]
  simp [hec, hext.not_lt, hmsgv, hscv, hsdv, hmsgneg, hmn.not_le, hc, hd,
    hcn, hdn, hp0, hf, hk0.ne']

/-- Witness for `signNR_then_verifyNR_valid` at the spec's toy fixture
`n = 23`, `x = 5`, `k = 7`, `m = 3` (where `c = 10`, `d = 3`). -/
theorem signNR_then_verifyNR_valid_witness :
    (ippsGFpECSignNR (some (toyBN 3)) (some (toyBN 5)) (some (toyBN 7))
        (some (toyBN 0)) (some (toyBN 0)) (some toyCtx) true).status = .NoErr ∧
    (ippsGFpECVerifyNR (some (toyBN 3))
        (some ⟨true, toyCtx.felen, (toyBN 5).val⟩)
        (ippsGFpECSignNR (some (toyBN 3)) (some (toyBN 5)) (some (toyBN 7))
          (some (toyBN 0)) (some (toyBN 0)) (some toyCtx) true).signC
        (ippsGFpECSignNR (some (toyBN 3)) (some (toyBN 5)) (some (toyBN 7))
          (some (toyBN 0)) (some (toyBN 0)) (some toyCtx) true).signD
        true (some toyCtx) true) =
      ⟨.NoErr, some .Valid, 1, 1, 3, 3⟩ :=
  signNR_then_verifyNR_valid toyCtx (toyBN 3) (toyBN 5) (toyBN 7) (toyBN 0)
    (toyBN 0) (by decide) (by decide) (by decide) (by decide) (by decide)
    (by decide) (by decide) (by decide) (by decide) (by decide) (by decide)
    (by decide) (by decide) (by decide) (by decide) (by decide) (by decide)
    (by decide) (by decide) (by decide) (by decide) (by decide)

/-- Modular congruence: reducing the subtrahend before an integer modular
subtraction does not change the remainder. -/
theorem intSub_mod_congr (a b n : ℤ) : (a - b % n) % n = (a - b) % n := by
  rw [Int.sub_emod, Int.emod_emod_of_dvd _ dvd_rfl, ← Int.sub_emod]

/-- C3: on every call to `ippsGFpECVerifyNR` passing its structural
preconditions, with `0 < c < n` and `0 < d < n` and the recomputed point
`P = d·G + c·Q` away from infinity, the call succeeds and the result is
`ippECValid` exactly when `(c - (P.x mod n)) mod n` equals the message
representative, `P.x` being the decoded canonical affine x-coordinate. -/
theorem verifyNR_condition
    (ec : ECCtx) (msg sc sd : BigNum) (pub : ECPub)
    (hec : ec.valid = true) (hext : ec.extDegree ≤ 1) (hn : 0 < ec.n)
    (hmsgv : msg.valid = true) (hmsgneg : msg.neg = false) (hmn : msg.val < ec.n)
    (hpubv : pub.valid = true) (hpubf : pub.felen = ec.felen)
    (hscv : sc.valid = true) (hsdv : sd.valid = true)
    (hscneg : sc.neg = false) (hsdneg : sd.neg = false)
    (hc0 : 0 < sc.val) (hcn : sc.val < ec.n)
    (hd0 : 0 < sd.val) (hdn : sd.val < ec.n)
    (hp : (sd.val + sc.val * pub.q) % ec.n ≠ 0) :
    (ippsGFpECVerifyNR (some msg) (some pub) (some sc) (some sd) true (some ec)
        true).status = .NoErr ∧
    ((ippsGFpECVerifyNR (some msg) (some pub) (some sc) (some sd) true (some ec)
        true).result = some .Valid ↔
      ((sc.val : ℤ) -
          ((ec.xcoord ((sd.val + sc.val * pub.q) % ec.n) % ec.n : ℕ) : ℤ))
          % (ec.n : ℤ) = (msg.val : ℤ)) := by
  have key : (((sc.val + ec.n -
      ec.xcoord ((sd.val + sc.val * pub.q) % ec.n) % ec.n) % ec.n : ℕ) : ℤ)
      = ((sc.val : ℤ) -
          ((ec.xcoord ((sd.val + sc.val * pub.q) % ec.n) % ec.n : ℕ) : ℤ))
          % (ec.n : ℤ) := by
    rw [natModSub_cast _ _ _ hn]
    push_cast
    rw [intSub_mod_congr]
  have hV : ippsGFpECVerifyNR (some msg) (some pub) (some sc) (some sd) true
      (some ec) true
      = if msg.val = (sc.val + ec.n -
            ec.xcoord ((sd.val + sc.val * pub.q) % ec.n) % ec.n) % ec.n
        then ⟨.NoErr, some .Valid, 1, 1, 3, 3⟩
        else ⟨.NoErr, some .InvalidSignature, 1, 1, 3, 3⟩ := by
    simp [ippsGFpECVerifyNR, hec, hext.not_lt, hmsgv, hmsgneg, hmn.not_le,
      hpubv, hpubf, hscv, hsdv, hscneg, hsdneg, hc0.ne', hd0.ne', hcn, hdn, hp]
  refine ⟨by rw [hV]; split <;> rfl, ?_⟩
  rw [hV]
  by_cases hcase : msg.val = (sc.val + ec.n -
      ec.xcoord ((sd.val + sc.val * pub.q) % ec.n) % ec.n) % ec.n
  · rw [if_pos hcase]
    have hpos : ((sc.val : ℤ) -
        ((ec.xcoord ((sd.val + sc.val * pub.q) % ec.n) % ec.n : ℕ) : ℤ))
        % (ec.n : ℤ) = (msg.val : ℤ) :=
      key.symm.trans (by exact_mod_cast hcase.symm)
    exact iff_of_true rfl hpos
  · rw [if_neg hcase]
    have hne : ¬ (((sc.val : ℤ) -
        ((ec.xcoord ((sd.val + sc.val * pub.q) % ec.n) % ec.n : ℕ) : ℤ))
        % (ec.n : ℤ) = (msg.val : ℤ)) := by
      intro h
      exact hcase (by exact_mod_cast (key.trans h).symm)
    exact iff_of_false (by simp) hne

/-- Witness for `verifyNR_condition` on the toy curve with `m = 3`,
`Q = 5·G`, `c = 10`, `d = 3`: the recomputed point has scalar 7 and the
recovered representative `(10 - 7) mod 23 = 3` matches, so the result is
`ippECValid`. -/
theorem verifyNR_condition_witness :
    (ippsGFpECVerifyNR (some (toyBN 3)) (some ⟨true, 1, 5⟩) (some (toyBN 10))
        (some (toyBN 3)) true (some toyCtx) true).status = .NoErr ∧
    ((ippsGFpECVerifyNR (some (toyBN 3)) (some ⟨true, 1, 5⟩) (some (toyBN 10))
        (some (toyBN 3)) true (some toyCtx) true).result = some .Valid ↔
      (((toyBN 10).val : ℤ) -
          ((toyCtx.xcoord (((toyBN 3).val + (toyBN 10).val * (5 : ℕ)) % toyCtx.n)
            % toyCtx.n : ℕ) : ℤ)) % (toyCtx.n : ℤ) = ((toyBN 3).val : ℤ)) :=
  verifyNR_condition toyCtx (toyBN 3) (toyBN 10) (toyBN 3) ⟨true, 1, 5⟩
    (by decide) (by decide) (by decide) (by decide) (by decide) (by decide)
    (by decide) (by decide) (by decide) (by decide) (by decide) (by decide)
    (by decide) (by decide) (by decide) (by decide) (by decide)

/-- C4 counterexample: on the degenerate input `n = 23`, `k = 1`, `m = 22`
(so that `r + m ≡ 0 (mod 23)`), `ippsGFpECSignNR` fails with `ippStsErr`
but the final state of `pSignC` differs from the caller-supplied one: its
data array was used as scratch for the x-coordinate and the zero sum `c`,
so the output buffers are not left untouched. -/
theorem signNR_degenerate_cex :
    (ippsGFpECSignNR (some (toyBN 22)) (some (toyBN 5)) (some (toyBN 1))
        (some (toyBN 5)) (some (toyBN 6)) (some toyCtx) true).status = .Err ∧
    (ippsGFpECSignNR (some (toyBN 22)) (some (toyBN 5)) (some (toyBN 1))
        (some (toyBN 5)) (some (toyBN 6)) (some toyCtx) true).signC ≠
      some (toyBN 5) := by
  decide

/-- C4 amended: when `ippsGFpECSignNR` computes `c = (r + m) mod n = 0`, the
call fails with `ippStsErr` (the degenerate-signature error) and the output
big numbers' headers — validity tag, sign, size-view value and room — are
not updated, but both data arrays have already been written: `pSignC`'s
array holds the computed zero `c` and `pSignD`'s array the zero-extended
message copy, so the buffers are not byte-for-byte untouched.  The borrowed
EC-point pool slot was already released before this return. -/
theorem signNR_degenerate_effects
    (ec : ECCtx) (msg reg eph sc sd : BigNum)
    (hec : ec.valid = true) (hext : ec.extDegree ≤ 1)
    (hmsgv : msg.valid = true) (hmsgneg : msg.neg = false) (hmn : msg.val < ec.n)
    (hregv : reg.valid = true) (hregneg : reg.neg = false) (hxn : reg.val < ec.n)
    (hephv : eph.valid = true) (hephneg : eph.neg = false) (hkn : eph.val < ec.n)
    (hscv : sc.valid = true) (hsdv : sd.valid = true)
    (hscroom : ec.orderBits ≤ sc.roomBits) (hsdroom : ec.orderBits ≤ sd.roomBits)
    (hc : (ec.xcoord (eph.val % ec.n) % ec.n + msg.val) % ec.n = 0) :
    ippsGFpECSignNR (some msg) (some reg) (some eph) (some sc) (some sd)
        (some ec) true =
      ⟨.Err, some { sc with arr := 0 }, some { sd with arr := msg.val },
       1, 1, 0, 0⟩ := by
  have hc' : (ec.xcoord (eph.val % ec.n) + msg.val) % ec.n = 0 := by
    rwa [Nat.mod_add_mod] at hc
  simp [ippsGFpECSignNR, hec, hmsgv, hregv, hephv, hscv, hsdv, hext.not_lt,
    hscroom.not_lt, hsdroom.not_lt, hmsgneg, hregneg, hephneg, hmn.not_le,
    hxn.not_le, hkn.not_le, hc']

/-- Witness for `signNR_degenerate_effects` at `n = 23`, `k = 1`, `m = 22`:
the call fails with `ippStsErr`, headers stay, and the data arrays hold the
zero `c` and the message copy. -/
theorem signNR_degenerate_effects_witness :
    ippsGFpECSignNR (some (toyBN 22)) (some (toyBN 5)) (some (toyBN 1))
        (some (toyBN 5)) (some (toyBN 6)) (some toyCtx) true =
      ⟨.Err, some { toyBN 5 with arr := 0 },
       some { toyBN 6 with arr := (toyBN 22).val }, 1, 1, 0, 0⟩ :=
  signNR_degenerate_effects toyCtx (toyBN 22) (toyBN 5) (toyBN 1) (toyBN 5)
    (toyBN 6) (by decide) (by decide) (by decide) (by decide) (by decide)
    (by decide) (by decide) (by decide) (by decide) (by decide) (by decide)
    (by decide) (by decide) (by decide) (by decide) (by decide)

/-- C5 counterexample: a negative `c` supplied to `ippsGFpECVerifyNR` does
not make the call succeed with result `ippECInvalidSignature`; the call
fails with `ippStsRangeErr` and nothing is written through `pResult`. -/
theorem verifyNR_negative_cex :
    ippsGFpECVerifyNR (some (toyBN 3)) (some ⟨true, 1, 5⟩)
        (some ⟨true, true, 10, 10, 64⟩) (some (toyBN 3)) true (some toyCtx)
        true = VerifyResult.fail .RangeErr ∧
    IppStatus.RangeErr ≠ IppStatus.NoErr := by
  decide

/-- C5 amended: for every call to `ippsGFpECVerifyNR` whose structural
preconditions hold and whose signature components are non-negative,
supplying `c = 0`, `d = 0`, `c ≥ n`, `d ≥ n`, or reaching the point at
infinity in `P = d·G + c·Q`, makes the call succeed with result
`ippECInvalidSignature`; a negative `c` or `d`, by contrast, fails the call
with `ippStsRangeErr`. -/
theorem verifyNR_invalid_success
    (ec : ECCtx) (msg sc sd : BigNum) (pub : ECPub)
    (hec : ec.valid = true) (hext : ec.extDegree ≤ 1)
    (hmsgv : msg.valid = true) (hmsgneg : msg.neg = false)
    (_hm0 : 0 < msg.val) (hmn : msg.val < ec.n)
    (hpubv : pub.valid = true) (hpubf : pub.felen = ec.felen)
    (hscv : sc.valid = true) (hsdv : sd.valid = true)
    (hscneg : sc.neg = false) (hsdneg : sd.neg = false)
    (hbad : sc.val = 0 ∨ sd.val = 0 ∨ ec.n ≤ sc.val ∨ ec.n ≤ sd.val ∨
      (sd.val + sc.val * pub.q) % ec.n = 0) :
    (ippsGFpECVerifyNR (some msg) (some pub) (some sc) (some sd) true (some ec)
        true).status = .NoErr ∧
    (ippsGFpECVerifyNR (some msg) (some pub) (some sc) (some sd) true (some ec)
        true).result = some .InvalidSignature := by
  by_cases hrange : sc.val ≠ 0 ∧ sd.val ≠ 0 ∧ sc.val < ec.n ∧ sd.val < ec.n
  · have hp0 : (sd.val + sc.val * pub.q) % ec.n = 0 := by
      rcases hbad with h | h | h | h | h
      · exact absurd h hrange.1
      · exact absurd h hrange.2.1
      · exact absurd h (by omega)
      · exact absurd h (by omega)
      · exact h
    constructor <;>
      simp [ippsGFpECVerifyNR, hec, hext.not_lt, hmsgv, hmsgneg, hmn.not_le,
        hpubv, hpubf, hscv, hsdv, hscneg, hsdneg, hrange.1, hrange.2.1,
        hrange.2.2.1, hrange.2.2.2, hp0]
  · constructor <;>
      simp [ippsGFpECVerifyNR, hec, hext.not_lt, hmsgv, hmsgneg, hmn.not_le,
        hpubv, hpubf, hscv, hsdv, hscneg, hsdneg, hrange]

/-- Witness for `verifyNR_invalid_success` at a zero `d` on the toy curve:
the call succeeds and reports `ippECInvalidSignature`. -/
theorem verifyNR_invalid_success_witness :
    (ippsGFpECVerifyNR (some (toyBN 3)) (some ⟨true, 1, 5⟩) (some (toyBN 10))
        (some (toyBN 0)) true (some toyCtx) true).status = .NoErr ∧
    (ippsGFpECVerifyNR (some (toyBN 3)) (some ⟨true, 1, 5⟩) (some (toyBN 10))
        (some (toyBN 0)) true (some toyCtx) true).result =
      some .InvalidSignature :=
  verifyNR_invalid_success toyCtx (toyBN 3) (toyBN 10) (toyBN 0) ⟨true, 1, 5⟩
    (by decide) (by decide) (by decide) (by decide) (by decide) (by decide)
    (by decide) (by decide) (by decide) (by decide) (by decide) (by decide)
    (by decide)

/-- C6 counterexample: a message representative equal to zero is not
rejected: with `m = 0` both `ippsGFpECSignNR` and `ippsGFpECVerifyNR`
return `ippStsNoErr` rather than the message-range error — the source only
tests `BN_NEGATIVE(pMsg)` and `m ≥ n`, never `m = 0`. -/
theorem messageZero_cex :
    (ippsGFpECSignNR (some (toyBN 0)) (some (toyBN 5)) (some (toyBN 7))
        (some (toyBN 0)) (some (toyBN 0)) (some toyCtx) true).status =
      .NoErr ∧
    (ippsGFpECVerifyNR (some (toyBN 0)) (some ⟨true, 1, 5⟩) (some (toyBN 7))
        (some (toyBN 18)) true (some toyCtx) true).status = .NoErr ∧
    IppStatus.NoErr ≠ IppStatus.MessageErr := by
  decide

/-- C6 amended: a negative message representative or one with `m ≥ n` makes
both `ippsGFpECSignNR` and `ippsGFpECVerifyNR` fail with `ippStsMessageErr`
before any signature arithmetic, the output buffers and the pools
untouched; `m = 0`, however, is accepted by both routines. -/
theorem messageRange_rejected
    (ec : ECCtx) (msg reg eph sc sd vc vd : BigNum) (pub : ECPub)
    (hec : ec.valid = true) (hext : ec.extDegree ≤ 1)
    (hmsgv : msg.valid = true)
    (hregv : reg.valid = true) (hregneg : reg.neg = false) (hxn : reg.val < ec.n)
    (hephv : eph.valid = true) (hephneg : eph.neg = false) (hkn : eph.val < ec.n)
    (hscv : sc.valid = true) (hsdv : sd.valid = true)
    (hscroom : ec.orderBits ≤ sc.roomBits) (hsdroom : ec.orderBits ≤ sd.roomBits)
    (hpubv : pub.valid = true) (hpubf : pub.felen = ec.felen)
    (hvcv : vc.valid = true) (hvdv : vd.valid = true)
    (hvcneg : vc.neg = false) (hvdneg : vd.neg = false)
    (hm : msg.neg = true ∨ ec.n ≤ msg.val) :
    ippsGFpECSignNR (some msg) (some reg) (some eph) (some sc) (some sd)
        (some ec) true = .fail .MessageErr (some sc) (some sd) ∧
    ippsGFpECVerifyNR (some msg) (some pub) (some vc) (some vd) true (some ec)
        true = .fail .MessageErr := by
  rcases hm with hm | hm <;>
    constructor <;>
      simp [ippsGFpECSignNR, ippsGFpECVerifyNR, hec, hext.not_lt, hmsgv,
        hregv, hregneg, hxn.not_le, hephv, hephneg, hkn.not_le, hscv, hsdv,
        hscroom.not_lt, hsdroom.not_lt, hpubv, hpubf, hvcv, hvdv, hvcneg,
        hvdneg, hm]

/-- Witness for `messageRange_rejected` at `m = 30 ≥ n = 23`: both routines
fail with `ippStsMessageErr` and leave the outputs untouched. -/
theorem messageRange_rejected_witness :
    ippsGFpECSignNR (some (toyBN 30)) (some (toyBN 5)) (some (toyBN 7))
        (some (toyBN 0)) (some (toyBN 0)) (some toyCtx) true =
      .fail .MessageErr (some (toyBN 0)) (some (toyBN 0)) ∧
    ippsGFpECVerifyNR (some (toyBN 30)) (some ⟨true, 1, 5⟩) (some (toyBN 10))
        (some (toyBN 3)) true (some toyCtx) true = .fail .MessageErr :=
  messageRange_rejected toyCtx (toyBN 30) (toyBN 5) (toyBN 7) (toyBN 0)
    (toyBN 0) (toyBN 10) (toyBN 3) ⟨true, 1, 5⟩ (by decide) (by decide)
    (by decide) (by decide) (by decide) (by decide) (by decide) (by decide)
    (by decide) (by decide) (by decide) (by decide) (by decide) (by decide)
    (by decide) (by decide) (by decide) (by decide) (by decide) (by decide)

/-- C7 counterexample: an input violating both a null-reference rule
(`pRegPrivate = NULL`) and an undersized-output-buffer rule (`pSignC` with
2 bits of room against 5 order bits) is rejected with `ippStsRangeErr`, not
with the null-pointer error the claimed category ordering (all null checks
first) would demand: the source validates argument group by argument group,
and the signature-buffer room test precedes the private-key null test. -/
theorem signNR_order_cex :
    (ippsGFpECSignNR (some (toyBN 3)) none (some (toyBN 7))
        (some ⟨true, false, 0, 0, 2⟩) (some (toyBN 0)) (some toyCtx)
        true).status = .RangeErr ∧
    IppStatus.RangeErr ≠ IppStatus.NullPtrErr := by
  decide

set_option maxHeartbeats 2000000 in
/-- C7 amended: `ippsGFpECSignNR` detects validation failures in the
source's fixed order, grouped by argument rather than by category: EC
context and scratch buffer (null, tag, extension degree), then message
(null, tag), then signature outputs (null, tags, rooms), then private keys
(null, tags), then the numeric range checks (keys, then message); the
status returned is the first failing check of `signNRChecks` in that order,
and when every check passes the call returns `ippStsNoErr` or the
degenerate `ippStsErr`, never a validation error. -/
theorem signNR_validation_order
    (pMsg pRegPrivate pEphPrivate : Option BigNum)
    (pSignC pSignD : Option BigNum) (pEC : Option ECCtx) (scratch : Bool) :
    (∀ e, signNRValidation pMsg pRegPrivate pEphPrivate pSignC pSignD pEC
          scratch = some e →
      (ippsGFpECSignNR pMsg pRegPrivate pEphPrivate pSignC pSignD pEC
        scratch).status = e) ∧
    (signNRValidation pMsg pRegPrivate pEphPrivate pSignC pSignD pEC
          scratch = none →
      (ippsGFpECSignNR pMsg pRegPrivate pEphPrivate pSignC pSignD pEC
          scratch).status = .NoErr ∨
      (ippsGFpECSignNR pMsg pRegPrivate pEphPrivate pSignC pSignD pEC
          scratch).status = .Err) := by
  rcases pEC with _ | ec
  · have hval : signNRValidation pMsg pRegPrivate pEphPrivate pSignC pSignD none scratch = some .NullPtrErr := by
      simp [signNRValidation, signNRChecks, List.findSome?]
    refine ⟨fun e he => ?_, fun he => ?_⟩ <;> rw [hval] at he
    · cases he
      simp [ippsGFpECSignNR, SignResult.fail]
    · cases he
  cases scratch
  · have hval : signNRValidation pMsg pRegPrivate pEphPrivate pSignC pSignD (some ec) false = some .NullPtrErr := by
      simp [signNRValidation, signNRChecks, List.findSome?]
    refine ⟨fun e he => ?_, fun he => ?_⟩ <;> rw [hval] at he
    · cases he
      simp [ippsGFpECSignNR, SignResult.fail]
    · cases he
  rcases pMsg with _ | msg
  · by_cases h1 : ec.valid = false
    have hval : signNRValidation none pRegPrivate pEphPrivate pSignC pSignD (some ec) true = some .ContextMatchErr := by
      simp [signNRValidation, signNRChecks, List.findSome?, h1]
    refine ⟨fun e he => ?_, fun he => ?_⟩ <;> rw [hval] at he
    · cases he
      simp [ippsGFpECSignNR, SignResult.fail, h1]
    · cases he
    by_cases h2 : 1 < ec.extDegree
    have hval : signNRValidation none pRegPrivate pEphPrivate pSignC pSignD (some ec) true = some .NotSupportedModeErr := by
      simp [signNRValidation, signNRChecks, List.findSome?, h1, h2]
    refine ⟨fun e he => ?_, fun he => ?_⟩ <;> rw [hval] at he
    · cases he
      simp [ippsGFpECSignNR, SignResult.fail, h1, h2]
    · cases he
    have hval : signNRValidation none pRegPrivate pEphPrivate pSignC pSignD (some ec) true = some .NullPtrErr := by
      simp [signNRValidation, signNRChecks, List.findSome?, h1, h2]
    refine ⟨fun e he => ?_, fun he => ?_⟩ <;> rw [hval] at he
    · cases he
      simp [ippsGFpECSignNR, SignResult.fail, h1, h2]
    · cases he
  rcases pSignC with _ | sc
  · by_cases h1 : ec.valid = false
    have hval : signNRValidation (some msg) pRegPrivate pEphPrivate none pSignD (some ec) true = some .ContextMatchErr := by
      simp [signNRValidation, signNRChecks, List.findSome?, h1]
    refine ⟨fun e he => ?_, fun he => ?_⟩ <;> rw [hval] at he
    · cases he
      simp [ippsGFpECSignNR, SignResult.fail, h1]
    · cases he
    by_cases h2 : 1 < ec.extDegree
    have hval : signNRValidation (some msg) pRegPrivate pEphPrivate none pSignD (some ec) true = some .NotSupportedModeErr := by
      simp [signNRValidation, signNRChecks, List.findSome?, h1, h2]
    refine ⟨fun e he => ?_, fun he => ?_⟩ <;> rw [hval] at he
    · cases he
      simp [ippsGFpECSignNR, SignResult.fail, h1, h2]
    · cases he
    by_cases h3 : msg.valid = false
    have hval : signNRValidation (some msg) pRegPrivate pEphPrivate none pSignD (some ec) true = some .ContextMatchErr := by
      simp [signNRValidation, signNRChecks, List.findSome?, h1, h2, h3]
    refine ⟨fun e he => ?_, fun he => ?_⟩ <;> rw [hval] at he
    · cases he
      simp [ippsGFpECSignNR, SignResult.fail, h1, h2, h3]
    · cases he
    have hval : signNRValidation (some msg) pRegPrivate pEphPrivate none pSignD (some ec) true = some .NullPtrErr := by
      simp [signNRValidation, signNRChecks, List.findSome?, h1, h2, h3]
    refine ⟨fun e he => ?_, fun he => ?_⟩ <;> rw [hval] at he
    · cases he
      simp [ippsGFpECSignNR, SignResult.fail, h1, h2, h3]
    · cases he
  rcases pSignD with _ | sd
  · by_cases h1 : ec.valid = false
    have hval : signNRValidation (some msg) pRegPrivate pEphPrivate (some sc) none (some ec) true = some .ContextMatchErr := by
      simp [signNRValidation, signNRChecks, List.findSome?, h1]
    refine ⟨fun e he => ?_, fun he => ?_⟩ <;> rw [hval] at he
    · cases he
      simp [ippsGFpECSignNR, SignResult.fail, h1]
    · cases he
    by_cases h2 : 1 < ec.extDegree
    have hval : signNRValidation (some msg) pRegPrivate pEphPrivate (some sc) none (some ec) true = some .NotSupportedModeErr := by
      simp [signNRValidation, signNRChecks, List.findSome?, h1, h2]
    refine ⟨fun e he => ?_, fun he => ?_⟩ <;> rw [hval] at he
    · cases he
      simp [ippsGFpECSignNR, SignResult.fail, h1, h2]
    · cases he
    by_cases h3 : msg.valid = false
    have hval : signNRValidation (some msg) pRegPrivate pEphPrivate (some sc) none (some ec) true = some .ContextMatchErr := by
      simp [signNRValidation, signNRChecks, List.findSome?, h1, h2, h3]
    refine ⟨fun e he => ?_, fun he => ?_⟩ <;> rw [hval] at he
    · cases he
      simp [ippsGFpECSignNR, SignResult.fail, h1, h2, h3]
    · cases he
    have hval : signNRValidation (some msg) pRegPrivate pEphPrivate (some sc) none (some ec) true = some .NullPtrErr := by
      simp [signNRValidation, signNRChecks, List.findSome?, h1, h2, h3]
    refine ⟨fun e he => ?_, fun he => ?_⟩ <;> rw [hval] at he
    · cases he
      simp [ippsGFpECSignNR, SignResult.fail, h1, h2, h3]
    · cases he
  rcases pRegPrivate with _ | reg
  · by_cases h1 : ec.valid = false
    have hval : signNRValidation (some msg) none pEphPrivate (some sc) (some sd) (some ec) true = some .ContextMatchErr := by
      simp [signNRValidation, signNRChecks, List.findSome?, h1]
    refine ⟨fun e he => ?_, fun he => ?_⟩ <;> rw [hval] at he
    · cases he
      simp [ippsGFpECSignNR, SignResult.fail, h1]
    · cases he
    by_cases h2 : 1 < ec.extDegree
    have hval : signNRValidation (some msg) none pEphPrivate (some sc) (some sd) (some ec) true = some .NotSupportedModeErr := by
      simp [signNRValidation, signNRChecks, List.findSome?, h1, h2]
    refine ⟨fun e he => ?_, fun he => ?_⟩ <;> rw [hval] at he
    · cases he
      simp [ippsGFpECSignNR, SignResult.fail, h1, h2]
    · cases he
    by_cases h3 : msg.valid = false
    have hval : signNRValidation (some msg) none pEphPrivate (some sc) (some sd) (some ec) true = some .ContextMatchErr := by
      simp [signNRValidation, signNRChecks, List.findSome?, h1, h2, h3]
    refine ⟨fun e he => ?_, fun he => ?_⟩ <;> rw [hval] at he
    · cases he
      simp [ippsGFpECSignNR, SignResult.fail, h1, h2, h3]
    · cases he
    by_cases h4 : sc.valid = false
    have hval : signNRValidation (some msg) none pEphPrivate (some sc) (some sd) (some ec) true = some .ContextMatchErr := by
      simp [signNRValidation, signNRChecks, List.findSome?, h1, h2, h3, h4]
    refine ⟨fun e he => ?_, fun he => ?_⟩ <;> rw [hval] at he
    · cases he
      simp [ippsGFpECSignNR, SignResult.fail, h1, h2, h3, h4]
    · cases he
    by_cases h5 : sd.valid = false
    have hval : signNRValidation (some msg) none pEphPrivate (some sc) (some sd) (some ec) true = some .ContextMatchErr := by
      simp [signNRValidation, signNRChecks, List.findSome?, h1, h2, h3, h4, h5]
    refine ⟨fun e he => ?_, fun he => ?_⟩ <;> rw [hval] at he
    · cases he
      simp [ippsGFpECSignNR, SignResult.fail, h1, h2, h3, h4, h5]
    · cases he
    by_cases h6 : sc.roomBits < ec.orderBits
    have hval : signNRValidation (some msg) none pEphPrivate (some sc) (some sd) (some ec) true = some .RangeErr := by
      simp [signNRValidation, signNRChecks, List.findSome?, h1, h2, h3, h4, h5, h6]
    refine ⟨fun e he => ?_, fun he => ?_⟩ <;> rw [hval] at he
    · cases he
      simp [ippsGFpECSignNR, SignResult.fail, h1, h2, h3, h4, h5, h6]
    · cases he
    by_cases h7 : sd.roomBits < ec.orderBits
    have hval : signNRValidation (some msg) none pEphPrivate (some sc) (some sd) (some ec) true = some .RangeErr := by
      simp [signNRValidation, signNRChecks, List.findSome?, h1, h2, h3, h4, h5, h6, h7]
    refine ⟨fun e he => ?_, fun he => ?_⟩ <;> rw [hval] at he
    · cases he
      simp [ippsGFpECSignNR, SignResult.fail, h1, h2, h3, h4, h5, h6, h7]
    · cases he
    have hval : signNRValidation (some msg) none pEphPrivate (some sc) (some sd) (some ec) true = some .NullPtrErr := by
      simp [signNRValidation, signNRChecks, List.findSome?, h1, h2, h3, h4, h5, h6, h7]
    refine ⟨fun e he => ?_, fun he => ?_⟩ <;> rw [hval] at he
    · cases he
      simp [ippsGFpECSignNR, SignResult.fail, h1, h2, h3, h4, h5, h6, h7]
    · cases he
  rcases pEphPrivate with _ | eph
  · by_cases h1 : ec.valid = false
    have hval : signNRValidation (some msg) (some reg) none (some sc) (some sd) (some ec) true = some .ContextMatchErr := by
      simp [signNRValidation, signNRChecks, List.findSome?, h1]
    refine ⟨fun e he => ?_, fun he => ?_⟩ <;> rw [hval] at he
    · cases he
      simp [ippsGFpECSignNR, SignResult.fail, h1]
    · cases he
    by_cases h2 : 1 < ec.extDegree
    have hval : signNRValidation (some msg) (some reg) none (some sc) (some sd) (some ec) true = some .NotSupportedModeErr := by
      simp [signNRValidation, signNRChecks, List.findSome?, h1, h2]
    refine ⟨fun e he => ?_, fun he => ?_⟩ <;> rw [hval] at he
    · cases he
      simp [ippsGFpECSignNR, SignResult.fail, h1, h2]
    · cases he
    by_cases h3 : msg.valid = false
    have hval : signNRValidation (some msg) (some reg) none (some sc) (some sd) (some ec) true = some .ContextMatchErr := by
      simp [signNRValidation, signNRChecks, List.findSome?, h1, h2, h3]
    refine ⟨fun e he => ?_, fun he => ?_⟩ <;> rw [hval] at he
    · cases he
      simp [ippsGFpECSignNR, SignResult.fail, h1, h2, h3]
    · cases he
    by_cases h4 : sc.valid = false
    have hval : signNRValidation (some msg) (some reg) none (some sc) (some sd) (some ec) true = some .ContextMatchErr := by
      simp [signNRValidation, signNRChecks, List.findSome?, h1, h2, h3, h4]
    refine ⟨fun e he => ?_, fun he => ?_⟩ <;> rw [hval] at he
    · cases he
      simp [ippsGFpECSignNR, SignResult.fail, h1, h2, h3, h4]
    · cases he
    by_cases h5 : sd.valid = false
    have hval : signNRValidation (some msg) (some reg) none (some sc) (some sd) (some ec) true = some .ContextMatchErr := by
      simp [signNRValidation, signNRChecks, List.findSome?, h1, h2, h3, h4, h5]
    refine ⟨fun e he => ?_, fun he => ?_⟩ <;> rw [hval] at he
    · cases he
      simp [ippsGFpECSignNR, SignResult.fail, h1, h2, h3, h4, h5]
    · cases he
    by_cases h6 : sc.roomBits < ec.orderBits
    have hval : signNRValidation (some msg) (some reg) none (some sc) (some sd) (some ec) true = some .RangeErr := by
      simp [signNRValidation, signNRChecks, List.findSome?, h1, h2, h3, h4, h5, h6]
    refine ⟨fun e he => ?_, fun he => ?_⟩ <;> rw [hval] at he
    · cases he
      simp [ippsGFpECSignNR, SignResult.fail, h1, h2, h3, h4, h5, h6]
    · cases he
    by_cases h7 : sd.roomBits < ec.orderBits
    have hval : signNRValidation (some msg) (some reg) none (some sc) (some sd) (some ec) true = some .RangeErr := by
      simp [signNRValidation, signNRChecks, List.findSome?, h1, h2, h3, h4, h5, h6, h7]
    refine ⟨fun e he => ?_, fun he => ?_⟩ <;> rw [hval] at he
    · cases he
      simp [ippsGFpECSignNR, SignResult.fail, h1, h2, h3, h4, h5, h6, h7]
    · cases he
    have hval : signNRValidation (some msg) (some reg) none (some sc) (some sd) (some ec) true = some .NullPtrErr := by
      simp [signNRValidation, signNRChecks, List.findSome?, h1, h2, h3, h4, h5, h6, h7]
    refine ⟨fun e he => ?_, fun he => ?_⟩ <;> rw [hval] at he
    · cases he
      simp [ippsGFpECSignNR, SignResult.fail, h1, h2, h3, h4, h5, h6, h7]
    · cases he
  by_cases h1 : ec.valid = false
  have hval : signNRValidation (some msg) (some reg) (some eph) (some sc) (some sd) (some ec) true = some .ContextMatchErr := by
    simp [signNRValidation, signNRChecks, List.findSome?, h1]
  refine ⟨fun e he => ?_, fun he => ?_⟩ <;> rw [hval] at he
  · cases he
    simp [ippsGFpECSignNR, SignResult.fail, h1]
  · cases he
  by_cases h2 : 1 < ec.extDegree
  have hval : signNRValidation (some msg) (some reg) (some eph) (some sc) (some sd) (some ec) true = some .NotSupportedModeErr := by
    simp [signNRValidation, signNRChecks, List.findSome?, h1, h2]
  refine ⟨fun e he => ?_, fun he => ?_⟩ <;> rw [hval] at he
  · cases he
    simp [ippsGFpECSignNR, SignResult.fail, h1, h2]
  · cases he
  by_cases h3 : msg.valid = false
  have hval : signNRValidation (some msg) (some reg) (some eph) (some sc) (some sd) (some ec) true = some .ContextMatchErr := by
    simp [signNRValidation, signNRChecks, List.findSome?, h1, h2, h3]
  refine ⟨fun e he => ?_, fun he => ?_⟩ <;> rw [hval] at he
  · cases he
    simp [ippsGFpECSignNR, SignResult.fail, h1, h2, h3]
  · cases he
  by_cases h4 : sc.valid = false
  have hval : signNRValidation (some msg) (some reg) (some eph) (some sc) (some sd) (some ec) true = some .ContextMatchErr := by
    simp [signNRValidation, signNRChecks, List.findSome?, h1, h2, h3, h4]
  refine ⟨fun e he => ?_, fun he => ?_⟩ <;> rw [hval] at he
  · cases he
    simp [ippsGFpECSignNR, SignResult.fail, h1, h2, h3, h4]
  · cases he
  by_cases h5 : sd.valid = false
  have hval : signNRValidation (some msg) (some reg) (some eph) (some sc) (some sd) (some ec) true = some .ContextMatchErr := by
    simp [signNRValidation, signNRChecks, List.findSome?, h1, h2, h3, h4, h5]
  refine ⟨fun e he => ?_, fun he => ?_⟩ <;> rw [hval] at he
  · cases he
    simp [ippsGFpECSignNR, SignResult.fail, h1, h2, h3, h4, h5]
  · cases he
  by_cases h6 : sc.roomBits < ec.orderBits
  have hval : signNRValidation (some msg) (some reg) (some eph) (some sc) (some sd) (some ec) true = some .RangeErr := by
    simp [signNRValidation, signNRChecks, List.findSome?, h1, h2, h3, h4, h5, h6]
  refine ⟨fun e he => ?_, fun he => ?_⟩ <;> rw [hval] at he
  · cases he
    simp [ippsGFpECSignNR, SignResult.fail, h1, h2, h3, h4, h5, h6]
  · cases he
  by_cases h7 : sd.roomBits < ec.orderBits
  have hval : signNRValidation (some msg) (some reg) (some eph) (some sc) (some sd) (some ec) true = some .RangeErr := by
    simp [signNRValidation, signNRChecks, List.findSome?, h1, h2, h3, h4, h5, h6, h7]
  refine ⟨fun e he => ?_, fun he => ?_⟩ <;> rw [hval] at he
  · cases he
    simp [ippsGFpECSignNR, SignResult.fail, h1, h2, h3, h4, h5, h6, h7]
  · cases he
  by_cases h8 : reg.valid = false
  have hval : signNRValidation (some msg) (some reg) (some eph) (some sc) (some sd) (some ec) true = some .ContextMatchErr := by
    simp [signNRValidation, signNRChecks, List.findSome?, h1, h2, h3, h4, h5, h6, h7, h8]
  refine ⟨fun e he => ?_, fun he => ?_⟩ <;> rw [hval] at he
  · cases he
    simp [ippsGFpECSignNR, SignResult.fail, h1, h2, h3, h4, h5, h6, h7, h8]
  · cases he
  by_cases h9 : eph.valid = false
  have hval : signNRValidation (some msg) (some reg) (some eph) (some sc) (some sd) (some ec) true = some .ContextMatchErr := by
    simp [signNRValidation, signNRChecks, List.findSome?, h1, h2, h3, h4, h5, h6, h7, h8, h9]
  refine ⟨fun e he => ?_, fun he => ?_⟩ <;> rw [hval] at he
  · cases he
    simp [ippsGFpECSignNR, SignResult.fail, h1, h2, h3, h4, h5, h6, h7, h8, h9]
  · cases he
  by_cases h10 : reg.neg = true ∨ ec.n ≤ reg.val
  have hval : signNRValidation (some msg) (some reg) (some eph) (some sc) (some sd) (some ec) true = some .IvalidPrivateKey := by
    simp [signNRValidation, signNRChecks, List.findSome?, h1, h2, h3, h4, h5, h6, h7, h8, h9, h10]
  refine ⟨fun e he => ?_, fun he => ?_⟩ <;> rw [hval] at he
  · cases he
    simp [ippsGFpECSignNR, SignResult.fail, h1, h2, h3, h4, h5, h6, h7, h8, h9, h10]
  · cases he
  by_cases h11 : eph.neg = true ∨ ec.n ≤ eph.val
  have hval : signNRValidation (some msg) (some reg) (some eph) (some sc) (some sd) (some ec) true = some .IvalidPrivateKey := by
    simp [signNRValidation, signNRChecks, List.findSome?, h1, h2, h3, h4, h5, h6, h7, h8, h9, h10, h11]
  refine ⟨fun e he => ?_, fun he => ?_⟩ <;> rw [hval] at he
  · cases he
    simp [ippsGFpECSignNR, SignResult.fail, h1, h2, h3, h4, h5, h6, h7, h8, h9, h10, h11]
  · cases he
  by_cases h12 : msg.neg = true ∨ ec.n ≤ msg.val
  have hval : signNRValidation (some msg) (some reg) (some eph) (some sc) (some sd) (some ec) true = some .MessageErr := by
    simp [signNRValidation, signNRChecks, List.findSome?, h1, h2, h3, h4, h5, h6, h7, h8, h9, h10, h11, h12]
  refine ⟨fun e he => ?_, fun he => ?_⟩ <;> rw [hval] at he
  · cases he
    simp [ippsGFpECSignNR, SignResult.fail, h1, h2, h3, h4, h5, h6, h7, h8, h9, h10, h11, h12]
  · cases he
  have hval : signNRValidation (some msg) (some reg) (some eph) (some sc) (some sd) (some ec) true = none := by
    simp [signNRValidation, signNRChecks, List.findSome?, h1, h2, h3, h4, h5, h6, h7, h8, h9, h10, h11, h12]
  refine ⟨fun e he => ?_, fun he => ?_⟩ <;> rw [hval] at he
  · cases he
  · by_cases hc : (ec.xcoord (eph.val % ec.n) + msg.val) % ec.n = 0
    · right
      simp [ippsGFpECSignNR, h1, h2, h3, h4, h5, h6, h7, h8, h9, h10, h11, h12, hc]
    · left
      simp [ippsGFpECSignNR, h1, h2, h3, h4, h5, h6, h7, h8, h9, h10, h11, h12, hc]

/-- Witness for `signNR_validation_order` at a concrete input violating both
a null-reference rule and a buffer-room rule: the first failing check in the
source's order is the `pSignC` room test, so the status is
`ippStsRangeErr`. -/
theorem signNR_validation_order_witness :
    (ippsGFpECSignNR (some (toyBN 3)) none (some (toyBN 7))
        (some ⟨true, false, 0, 0, 2⟩) (some (toyBN 0)) (some toyCtx)
        true).status = IppStatus.RangeErr :=
  (signNR_validation_order (some (toyBN 3)) none (some (toyBN 7))
      (some ⟨true, false, 0, 0, 2⟩) (some (toyBN 0)) (some toyCtx) true).1
    .RangeErr (by decide)

set_option maxHeartbeats 2000000 in
/-- C8: both `ippsGFpECSignNR` and `ippsGFpECVerifyNR` release exactly as
many scratch-pool slots as they acquire, for the EC-point pool and the
field-element pool alike, on every input — validation failures acquire
nothing, the degenerate-signature return in signing happens after the
single point slot was released, and both the point-at-infinity and the
comparison paths of verification release the three field elements and one
point they borrowed. -/
theorem pool_balanced :
    (∀ pMsg pRegPrivate pEphPrivate pSignC pSignD pEC scratch,
      (ippsGFpECSignNR pMsg pRegPrivate pEphPrivate pSignC pSignD pEC
          scratch).ecAcq =
        (ippsGFpECSignNR pMsg pRegPrivate pEphPrivate pSignC pSignD pEC
          scratch).ecRel ∧
      (ippsGFpECSignNR pMsg pRegPrivate pEphPrivate pSignC pSignD pEC
          scratch).feAcq =
        (ippsGFpECSignNR pMsg pRegPrivate pEphPrivate pSignC pSignD pEC
          scratch).feRel) ∧
    (∀ pMsg pRegPublic pSignC pSignD resultPtr pEC scratch,
      (ippsGFpECVerifyNR pMsg pRegPublic pSignC pSignD resultPtr pEC
          scratch).ecAcq =
        (ippsGFpECVerifyNR pMsg pRegPublic pSignC pSignD resultPtr pEC
          scratch).ecRel ∧
      (ippsGFpECVerifyNR pMsg pRegPublic pSignC pSignD resultPtr pEC
          scratch).feAcq =
        (ippsGFpECVerifyNR pMsg pRegPublic pSignC pSignD resultPtr pEC
          scratch).feRel) := by
  constructor
  · intro pMsg pRegPrivate pEphPrivate pSignC pSignD pEC scratch
    rcases pEC with _ | ec
    · exact ⟨rfl, rfl⟩
    cases scratch
    · exact ⟨rfl, rfl⟩
    rcases pMsg with _ | msg <;>
      rcases pSignC with _ | sc <;> rcases pSignD with _ | sd <;>
      rcases pRegPrivate with _ | reg <;> rcases pEphPrivate with _ | eph <;>
      constructor <;>
      simp only [ippsGFpECSignNR, SignResult.fail, apply_ite SignResult.ecAcq,
        apply_ite SignResult.ecRel, apply_ite SignResult.feAcq,
        apply_ite SignResult.feRel, ite_self]
  · intro pMsg pRegPublic pSignC pSignD resultPtr pEC scratch
    rcases pEC with _ | ec
    · exact ⟨rfl, rfl⟩
    cases scratch
    · exact ⟨rfl, rfl⟩
    rcases pMsg with _ | msg <;>
      rcases pRegPublic with _ | pub <;> rcases pSignC with _ | sc <;>
      rcases pSignD with _ | sd <;> cases resultPtr <;>
      constructor <;>
      simp only [ippsGFpECVerifyNR, VerifyResult.fail,
        apply_ite VerifyResult.ecAcq, apply_ite VerifyResult.ecRel,
        apply_ite VerifyResult.feAcq, apply_ite VerifyResult.feRel, ite_self]

/-- Processed-length bookkeeping of the non-empty-message block: the 64-bit
counter `HASH_LENLO` advances by exactly the consumed length, with
wraparound. -/
theorem sha256UpdateBody_lenLo (f : ℕ → List ℕ → ℕ) (src : List ℕ) (L : ℕ)
    (st : SHA256State) :
    (sha256UpdateBody f src L st).lenLo = (st.lenLo + L) % 2 ^ 64 := rfl

/-- Buffer-index bookkeeping of the non-empty-message block: starting below
one block, the fill index advances by the consumed length modulo the block
size, across the partial-fill, bulk and tail phases. -/
theorem sha256UpdateBody_buffIdx (f : ℕ → List ℕ → ℕ) (src : List ℕ) (L : ℕ)
    (st : SHA256State) (h : st.buffIdx < 64) :
    (sha256UpdateBody f src L st).buffIdx = (st.buffIdx + L) % 64 := by
  by_cases hi0 : st.buffIdx = 0
  · simp [sha256UpdateBody, MBS_SHA256, hi0]
    omega
  · by_cases hfull : st.buffIdx + min L (64 - st.buffIdx) = 64
    · simp [sha256UpdateBody, MBS_SHA256, hi0, hfull]
      omega
    · simp [sha256UpdateBody, MBS_SHA256, hi0, hfull]
      omega

/-- C9: on every valid SHA-256 state, `ippsSHA256Update` with `len = 0`
returns success and leaves the state unchanged, for any source pointer
including NULL; and with a NULL source pointer the null-pointer error is
returned exactly when `len > 0` (a negative `len` is a length error, not a
null-pointer error). -/
theorem sha256Update_zero_len (f : ℕ → List ℕ → ℕ) (st : SHA256State)
    (hv : st.valid = true) :
    (∀ pSrc, ippsSHA256Update f pSrc 0 (some st) = (.NoErr, some st)) ∧
    (∀ len : ℤ,
      (ippsSHA256Update f none len (some st)).1 = .NullPtrErr ↔ 0 < len) := by
  constructor
  · intro pSrc
    simp [ippsSHA256Update, hv]
  · intro len
    by_cases hneg : len < 0
    · simp [ippsSHA256Update, hv, hneg]
      omega
    · by_cases h0 : len = 0
      · simp [ippsSHA256Update, hv, hneg, h0]
      · simp [ippsSHA256Update, hv, hneg, h0]
        omega

/-- Witness for `sha256Update_zero_len` at a fresh state: the zero-length
update with NULL source succeeds unchanged, while a NULL source with
`len = 5` is a null-pointer error. -/
theorem sha256Update_zero_len_witness :
    ippsSHA256Update (fun d _ => d) none 0 (some ⟨true, 0, [], 0, 0⟩) =
      (.NoErr, some ⟨true, 0, [], 0, 0⟩) ∧
    ((ippsSHA256Update (fun d _ => d) none 5
        (some ⟨true, 0, [], 0, 0⟩)).1 = .NullPtrErr ↔ (0 : ℤ) < 5) :=
  ⟨(sha256Update_zero_len (fun d _ => d) ⟨true, 0, [], 0, 0⟩ rfl).1 none,
   (sha256Update_zero_len (fun d _ => d) ⟨true, 0, [], 0, 0⟩ rfl).2 5⟩

/-- C10: every successful `ippsSHA256Update` call on a state satisfying the
buffering invariant — fill index below one block and congruent to the
processed length modulo the block size — preserves that invariant and
advances the 64-bit processed-length counter by exactly `len`, modulo
`2^64`. -/
theorem sha256Update_invariant (f : ℕ → List ℕ → ℕ) (src : List ℕ) (len : ℤ)
    (st : SHA256State) (hv : st.valid = true) (hlen : 0 ≤ len)
    (hidx : st.buffIdx < 64) (hinv : st.buffIdx = st.lenLo % 64)
    (hlo : st.lenLo < 2 ^ 64) :
    ∃ st', ippsSHA256Update f (some src) len (some st) = (.NoErr, some st') ∧
      st'.buffIdx < 64 ∧ st'.buffIdx = st'.lenLo % 64 ∧
      st'.lenLo = (st.lenLo + len.toNat) % 2 ^ 64 := by
  have hnneg : ¬ len < 0 := by omega
  by_cases hz : len = 0
  · refine ⟨st, ?_, hidx, hinv, ?_⟩
    · simp [ippsSHA256Update, hv, hnneg, hz]
    · subst hz
      simp only [Int.toNat_zero, Nat.add_zero]
      have : (2 : ℕ) ^ 64 = 18446744073709551616 := by norm_num
      omega
  · refine ⟨sha256UpdateBody f src len.toNat st, ?_, ?_, ?_,
      sha256UpdateBody_lenLo f src len.toNat st⟩
    · simp [ippsSHA256Update, hv, hnneg, hz]
    · rw [sha256UpdateBody_buffIdx f src len.toNat st hidx]
      exact Nat.mod_lt _ (by norm_num)
    · rw [sha256UpdateBody_buffIdx f src len.toNat st hidx,
        sha256UpdateBody_lenLo f src len.toNat st]
      have : (2 : ℕ) ^ 64 = 18446744073709551616 := by norm_num
      omega

/-- Witness for `sha256Update_invariant`: a state with 74 processed bytes
and fill index 10 absorbing 100 further bytes keeps the invariant (new
index `(74 + 100) mod 64 = 46`, new length 174). -/
theorem sha256Update_invariant_witness :
    ∃ st', ippsSHA256Update (fun d _ => d + 1) (some (List.range 100)) 100
        (some ⟨true, 10, List.replicate 64 0, 74, 42⟩) = (.NoErr, some st') ∧
      st'.buffIdx < 64 ∧ st'.buffIdx = st'.lenLo % 64 ∧
      st'.lenLo = (74 + (100 : ℤ).toNat) % 2 ^ 64 :=
  sha256Update_invariant (fun d _ => d + 1) (List.range 100) 100
    ⟨true, 10, List.replicate 64 0, 74, 42⟩ rfl (by decide) (by decide)
    (by decide) (by decide)
